import Mathlib

set_option autoImplicit false

/-!
Shallow embedding of `pkg/gits/git_repo.go` (the repository-provisioning
resolver `PickNewOrExistingGitRepository` together with its helper stages
`GetRepoName` and `GetOwner`).

The resolver's external collaborators — the credential store
(`auth.ConfigService` / `auth.AuthConfig`), the prompt engine (the survey
library, `PickServer`, `PickServerUserAuth`, `EditUserAuth`,
`PickOrganisation`), the Gitter, and the hosting-provider client — are not
part of the source file; they are modelled from the spec as an environment
of oracle functions (`GitEnv`).  Every call the resolver makes that either
reaches the prompt engine or writes to the credential store is recorded in
an explicit effect trace (`Effect`), so that claims about prompting and
persistence are statable.  The mutable pieces of state the Go code updates
in place (the `repoOptions` record, the selected `userAuth`) are threaded
through as values.
-/

/-- Modelled from the spec: `UserCredential` is "a username + access token
pair scoped to one `HostingServer`" (§3).  Mirrors `auth.UserAuth`, whose
definition is outside this source file. -/
structure UserAuth where
  Username : String
  ApiToken : String
deriving DecidableEq, Repr

/-- Modelled from the spec: the credential's "validity predicate (token
present and well-formed)" (§3) — the credential is invalid when the access
token is absent.  Mirrors `auth.UserAuth.IsInvalid`, whose definition is
outside this source file. -/
def UserAuth.IsInvalid (u : UserAuth) : Bool :=
  u.ApiToken == ""

/-- Modelled from the spec: `HostingServer` — "URL, display name/label,
kind, set of known user credentials, name of the current credential" (§3).
Mirrors `auth.AuthServer`. -/
structure AuthServer where
  URL : String
  Name : String
  Kind : String
  Users : List UserAuth
  CurrentUser : String
deriving DecidableEq, Repr

/-- Modelled from the spec: the credential store's snapshot of known
servers plus the designated "current" server.  Mirrors `auth.AuthConfig`
(fields `Servers` and `CurrentServer`). -/
structure AuthConfig where
  Servers : List AuthServer
  CurrentServer : String
deriving DecidableEq, Repr

/-- Mirrors `GitRepositoryOptions` (git_repo.go lines 24-32). -/
structure GitRepositoryOptions where
  ServerURL : String
  ServerKind : String
  Username : String
  ApiToken : String
  Owner : String
  RepoName : String
  Private : Bool
deriving DecidableEq, Repr

/-- Modelled from the spec: the hosting-provider client capability the
resolver uses directly — provider-side repository-name validation
(`validateRepositoryName(owner, name) -> error|nil`, §6).  `some msg` is a
rejection, `none` acceptance.  The `tag` field stands for the handle's
identity. -/
structure GitProvider where
  tag : String
  validateRepositoryName : String → String → Option String

/-- Mirrors `CreateRepoData` (git_repo.go lines 14-22).  In the Go code
`User`, `Server` and `GitProvider` are pointers/interfaces; here they are
carried as values, so "non-nil" is structural. -/
structure CreateRepoData where
  Organisation : String
  RepoName : String
  FullName : String
  PrivateRepo : Bool
  User : UserAuth
  Server : AuthServer
  GitProvider : GitProvider

/-- The terminal error kinds the resolver can return (spec §7 and the
`fmt.Errorf` sites of git_repo.go). -/
inductive GitErr where
  /-- The "No Git servers are configured!" error (line 55). -/
  | noServersConfigured : GitErr
  /-- The "Server %s has no user auths defined" error (line 86). -/
  | noUserAuths (url : String) : GitErr
  /-- The "You did not properly define the user authentication" error (line 129). -/
  | incompleteAuth : GitErr
  /-- The "Failed to store git auth configuration %s" error (line 126). -/
  | saveFailed (msg : String) : GitErr
  /-- The user aborted an interactive prompt (spec §7 PromptCancelled). -/
  | promptCancelled : GitErr
  /-- `CreateProvider` failed (spec §7 ProviderConstructionError). -/
  | providerErr (msg : String) : GitErr
  /-- The "No repository name specified" error (line 200). -/
  | repoNameRequired : GitErr
deriving DecidableEq, Repr

/-- The observable side effects of one resolver invocation: calls that
reach the prompt engine and writes to the credential store. -/
inductive Effect where
  /-- `config.PickServer` (line 69) — interactive server choice. -/
  | promptServer : Effect
  /-- `config.PickServerUserAuth` (line 97) — interactive username choice. -/
  | promptUserAuth : Effect
  /-- `config.EditUserAuth` (line 117); the flag records the `batchMode`
  argument the resolver passes through. -/
  | editUserAuth (batch : Bool) : Effect
  /-- `survey.AskOne` for the repository name (line 195). -/
  | askRepoName : Effect
  /-- `PickOrganisation` (line 211) — interactive organisation choice. -/
  | promptOrganisation : Effect
  /-- `authConfigSvc.SaveUserAuth(url, userAuth)` (line 124) — the store
  write that persists the edited credential. -/
  | saveUserAuth (url : String) (u : UserAuth) : Effect
deriving DecidableEq, Repr

/-- Modelled from the spec: which effects are prompt-engine calls, i.e.
points where the resolver blocks on human input.  The credential-edit
collaborator receives the batch flag (git_repo.go line 117 passes
`batchMode` through); per the glossary "batch mode ... must never block on
human input", an edit invoked with the batch flag set does not prompt. -/
def Effect.isPrompt : Effect → Bool
  | .promptServer => true
  | .promptUserAuth => true
  | .editUserAuth batch => !batch
  | .askRepoName => true
  | .promptOrganisation => true
  | .saveUserAuth _ _ => false

/-- Modelled from the spec: the environment of external collaborators (§6).
Store lookups/creations are oracles; interactive calls return the user's
answer or a cancellation error; `saveUserAuth` returns `some msg` on a
store-write failure. -/
structure GitEnv where
  getOrCreateServer : String → AuthServer
  getOrCreateUserAuth : String → String → UserAuth
  findUserAuth : String → String → Option UserAuth
  pickServer : AuthConfig → Except GitErr AuthServer
  pickServerUserAuth : AuthServer → Except GitErr UserAuth
  editUserAuth : Bool → UserAuth → Except GitErr UserAuth
  saveUserAuth : String → UserAuth → Option String
  createProvider : AuthServer → UserAuth → Except GitErr GitProvider
  pickOrganisation : GitProvider → String → Except GitErr String

/-- Modelled from the spec: the Gitter's qualified-name join used at
git_repo.go line 155 (`git.RepoName(owner, repoName)`): "the
hosting-provider-specific string identifying a repository uniquely
(commonly `owner/name`)" (glossary). -/
def gitJoinRepoName (owner name : String) : String :=
  owner ++ "/" ++ name

/-- Server stage, mirroring git_repo.go lines 49-76: use a supplied server
unchanged; else look up / create by `ServerURL`; else in batch mode fail on
an empty store or pick the current server by name-or-URL match falling back
to the first; else prompt.  When a server is chosen from the store or by
prompt, its URL is recorded back into the options (line 74). -/
def resolveServer (batchMode : Bool) (env : GitEnv) (config : AuthConfig)
    (repoOptions : GitRepositoryOptions) (serverArg : Option AuthServer) :
    Except GitErr (AuthServer × GitRepositoryOptions) × List Effect :=
  match serverArg with
  | some s => (.ok (s, repoOptions), [])
  | none =>
    if repoOptions.ServerURL ≠ "" then
      (.ok (env.getOrCreateServer repoOptions.ServerURL, repoOptions), [])
    else if batchMode then
      match config.Servers with
      | [] => (.error .noServersConfigured, [])
      | s0 :: _ =>
        let server :=
          if config.CurrentServer ≠ "" then
            match config.Servers.find? (fun s =>
                s.Name = config.CurrentServer || s.URL = config.CurrentServer) with
            | some s => s
            | none => s0
          else s0
        (.ok (server, { repoOptions with ServerURL := server.URL }), [])
    else
      match env.pickServer config with
      | .error e => (.error e, [.promptServer])
      | .ok server =>
        (.ok (server, { repoOptions with ServerURL := server.URL }), [.promptServer])

/-- Credential stage, mirroring git_repo.go lines 80-103: use a supplied
credential unchanged; else look up / create by the options' username; else
in batch mode fail when the server has no credentials or pick the server's
current user by name falling back to the first; else prompt. -/
def resolveUserAuth (batchMode : Bool) (env : GitEnv) (server : AuthServer)
    (repoOptions : GitRepositoryOptions) (userAuthArg : Option UserAuth) :
    Except GitErr UserAuth × List Effect :=
  match userAuthArg with
  | some u => (.ok u, [])
  | none =>
    if repoOptions.Username ≠ "" then
      (.ok (env.getOrCreateUserAuth server.URL repoOptions.Username), [])
    else if batchMode then
      match server.Users with
      | [] => (.error (.noUserAuths server.URL), [])
      | u0 :: _ =>
        let found :=
          if server.CurrentUser ≠ "" then
            env.findUserAuth server.URL server.CurrentUser
          else none
        (.ok (found.getD u0), [])
    else
      match env.pickServerUserAuth server with
      | .error e => (.error e, [.promptUserAuth])
      | .ok u => (.ok u, [.promptUserAuth])

/-- Mirrors git_repo.go lines 105-107: when the selected credential is
invalid and the options carry an API token, apply that token. -/
def applyTokenFromOpts (repoOptions : GitRepositoryOptions) (userAuth : UserAuth) :
    UserAuth :=
  if userAuth.IsInvalid ∧ repoOptions.ApiToken ≠ "" then
    { userAuth with ApiToken := repoOptions.ApiToken }
  else userAuth

/-- Mirrors git_repo.go lines 105-131: apply an options-supplied token, and
when the credential is still invalid run the edit flow — `EditUserAuth`
(which may fail, e.g. on prompt cancellation), then `SaveUserAuth` (a store
write, which may itself fail), then the final validity check that fails
with the incomplete-authentication error. -/
def applyTokenAndEdit (batchMode : Bool) (env : GitEnv) (url : String)
    (repoOptions : GitRepositoryOptions) (userAuth : UserAuth) :
    Except GitErr UserAuth × List Effect :=
  let u1 := applyTokenFromOpts repoOptions userAuth
  if u1.IsInvalid then
    match env.editUserAuth batchMode u1 with
    | .error e => (.error e, [.editUserAuth batchMode])
    | .ok u2 =>
      match env.saveUserAuth url u2 with
      | some msg =>
        (.error (.saveFailed msg), [.editUserAuth batchMode, .saveUserAuth url u2])
      | none =>
        if u2.IsInvalid then
          (.error .incompleteAuth, [.editUserAuth batchMode, .saveUserAuth url u2])
        else
          (.ok u2, [.editUserAuth batchMode, .saveUserAuth url u2])
  else (.ok u1, [])

/-- Mirrors `GetOwner` (git_repo.go lines 206-221): batch mode defaults the
owner to the git username; interactive mode asks the user to pick an
organisation and falls back to the username on an empty selection. -/
def GetOwner (batchMode : Bool) (env : GitEnv) (provider : GitProvider)
    (gitUsername : String) : Except GitErr String × List Effect :=
  if batchMode then
    (.ok gitUsername, [])
  else
    match env.pickOrganisation provider gitUsername with
    | .error e => (.error e, [.promptOrganisation])
    | .ok org => (.ok (if org = "" then gitUsername else org), [.promptOrganisation])

/-- Modelled from the spec: Go's `strings.TrimSpace` (an external standard
library call at git_repo.go line 187) — strip leading and trailing
whitespace. -/
def trimSpace (s : String) : String :=
  ⟨((s.data.dropWhile Char.isWhitespace).reverse.dropWhile Char.isWhitespace).reverse⟩

/-- The validator closure of git_repo.go lines 182-194 (specialised to
string input): reject a blank (whitespace-only) name, accept anything when
existing repositories are allowed, otherwise defer to the provider's
name-validation capability. -/
def repoNameValidator (allowExistingRepo : Bool) (provider : GitProvider)
    (owner : String) (str : String) : Option String :=
  if trimSpace str = "" then some "Repository name is required"
  else if allowExistingRepo then none
  else provider.validateRepositoryName owner str

/-- Modelled from the spec: the prompt engine's `ask(question, default,
validator)` for a text input with a pre-filled default (survey's `AskOne`).
`responses` is the stream of raw user answers; an empty answer accepts the
pre-filled default; an answer the validator rejects is re-prompted (the
next response is consumed); an exhausted stream is a cancellation. -/
def askOne (default : String) (validator : String → Option String) :
    List String → Except GitErr String
  | [] => .error .promptCancelled
  | r :: rest =>
    let candidate := if r = "" then default else r
    match validator candidate with
    | none => .ok candidate
    | some _ => askOne default validator rest

/-- Mirrors `GetRepoName` (git_repo.go lines 169-204): batch mode uses the
default name, falling back to the placeholder "dummy" when the default is
empty; interactive mode prompts with the validator of
`repoNameValidator` and rejects an empty final answer. -/
def GetRepoName (batchMode allowExistingRepo : Bool) (provider : GitProvider)
    (defaultRepoName owner : String) (responses : List String) :
    Except GitErr String × List Effect :=
  if batchMode then
    (.ok (if defaultRepoName = "" then "dummy" else defaultRepoName), [])
  else
    match askOne defaultRepoName (repoNameValidator allowExistingRepo provider owner)
        responses with
    | .error e => (.error e, [.askRepoName])
    | .ok repoName =>
      if repoName = "" then (.error .repoNameRequired, [.askRepoName])
      else (.ok repoName, [.askRepoName])

/-- Owner stage of the main pipeline (git_repo.go lines 140-146): an
options-supplied owner is used as is, otherwise `GetOwner` runs. -/
def resolveOwnerStage (batchMode : Bool) (env : GitEnv) (provider : GitProvider)
    (repoOptions : GitRepositoryOptions) (gitUsername : String) :
    Except GitErr String × List Effect :=
  if repoOptions.Owner ≠ "" then (.ok repoOptions.Owner, [])
  else GetOwner batchMode env provider gitUsername

/-- Repository-name stage of the main pipeline (git_repo.go lines
147-153): an options-supplied name is used as is, otherwise `GetRepoName`
runs. -/
def resolveRepoNameStage (batchMode allowExistingRepo : Bool)
    (provider : GitProvider) (defaultRepoName owner : String)
    (repoOptions : GitRepositoryOptions) (responses : List String) :
    Except GitErr String × List Effect :=
  if repoOptions.RepoName ≠ "" then (.ok repoOptions.RepoName, [])
  else GetRepoName batchMode allowExistingRepo provider defaultRepoName owner responses

/-- The outcome of one resolver invocation: the returned value or error,
the trace of prompt/store effects, and the final state of the (mutated in
Go) options record. -/
structure PickResult where
  result : Except GitErr CreateRepoData
  effects : List Effect
  opts : GitRepositoryOptions

/-- Mirrors `PickNewOrExistingGitRepository` (git_repo.go lines 44-167):
the stage pipeline server → credential → token/edit → provider → owner →
name → assembly, each stage short-circuiting on error.  `responses` stands
for the interactive input stream of the repository-name prompt. -/
def PickNewOrExistingGitRepository (batchMode : Bool) (env : GitEnv)
    (config : AuthConfig) (defaultRepoName : String)
    (repoOptions : GitRepositoryOptions) (serverArg : Option AuthServer)
    (userAuthArg : Option UserAuth) (allowExistingRepo : Bool)
    (responses : List String) : PickResult :=
  match resolveServer batchMode env config repoOptions serverArg with
  | (.error e, t1) => ⟨.error e, t1, repoOptions⟩
  | (.ok (server, opts1), t1) =>
    match resolveUserAuth batchMode env server opts1 userAuthArg with
    | (.error e, t2) => ⟨.error e, t1 ++ t2, opts1⟩
    | (.ok userAuth, t2) =>
      match applyTokenAndEdit batchMode env server.URL opts1 userAuth with
      | (.error e, t3) => ⟨.error e, t1 ++ t2 ++ t3, opts1⟩
      | (.ok u1, t3) =>
        match env.createProvider server u1 with
        | .error e => ⟨.error e, t1 ++ t2 ++ t3, opts1⟩
        | .ok provider =>
          match resolveOwnerStage batchMode env provider opts1 u1.Username with
          | (.error e, t4) => ⟨.error e, t1 ++ t2 ++ t3 ++ t4, opts1⟩
          | (.ok owner, t4) =>
            match resolveRepoNameStage batchMode allowExistingRepo provider
                defaultRepoName owner opts1 responses with
            | (.error e, t5) => ⟨.error e, t1 ++ t2 ++ t3 ++ t4 ++ t5, opts1⟩
            | (.ok repoName, t5) =>
              ⟨.ok { Organisation := owner
                     RepoName := repoName
                     FullName := gitJoinRepoName owner repoName
                     PrivateRepo := opts1.Private
                     User := u1
                     Server := server
                     GitProvider := provider },
               t1 ++ t2 ++ t3 ++ t4 ++ t5, opts1⟩

/-- Mirrors `PickNewGitRepository` (git_repo.go lines 223-226): the same
pipeline with `allowExistingRepo` fixed to `false`. -/
def PickNewGitRepository (batchMode : Bool) (env : GitEnv) (config : AuthConfig)
    (defaultRepoName : String) (repoOptions : GitRepositoryOptions)
    (serverArg : Option AuthServer) (userAuthArg : Option UserAuth)
    (responses : List String) : PickResult :=
  PickNewOrExistingGitRepository batchMode env config defaultRepoName repoOptions
    serverArg userAuthArg false responses

/-! Concrete fixtures used by witnesses and counterexamples. -/

/-- A valid credential fixture. -/
def aliceAuth : UserAuth :=
  { Username := "alice", ApiToken := "tok123" }

/-- An invalid credential fixture (no token). -/
def noTokenAuth : UserAuth :=
  { Username := "bob", ApiToken := "" }

/-- A credential fixture with a token but an empty username. -/
def anonAuth : UserAuth :=
  { Username := "", ApiToken := "tok456" }

/-- A server fixture with one valid registered credential. -/
def exampleServer : AuthServer :=
  { URL := "https://git.example.com", Name := "example", Kind := "github"
    Users := [aliceAuth], CurrentUser := "alice" }

/-- A store fixture holding a single server designated as current. -/
def exampleConfig : AuthConfig :=
  { Servers := [exampleServer], CurrentServer := "example" }

/-- A provider fixture whose name validation accepts every name. -/
def acceptAllProvider : GitProvider :=
  { tag := "provider-ok", validateRepositoryName := fun _ _ => none }

/-- A provider fixture whose name validation rejects every name. -/
def rejectAllProvider : GitProvider :=
  { tag := "provider-reject"
    validateRepositoryName := fun _ _ => some "name already in use" }

/-- A collaborator environment fixture: store operations succeed, the
credential edit returns the credential unchanged, provider construction
yields `acceptAllProvider`, and interactive pickers are never exercised. -/
def baseEnv : GitEnv :=
  { getOrCreateServer := fun url =>
      { URL := url, Name := url, Kind := "", Users := [], CurrentUser := "" }
    getOrCreateUserAuth := fun _ name => { Username := name, ApiToken := "" }
    findUserAuth := fun _ _ => none
    pickServer := fun _ => .error .promptCancelled
    pickServerUserAuth := fun _ => .error .promptCancelled
    editUserAuth := fun _ u => .ok u
    saveUserAuth := fun _ _ => none
    createProvider := fun _ _ => .ok acceptAllProvider
    pickOrganisation := fun _ _ => .ok "" }

/-- An environment fixture whose credential edit fails (the user cancels
the prompt, or the batch edit cannot supply a token). -/
def cancelEditEnv : GitEnv :=
  { baseEnv with editUserAuth := fun _ _ => .error .promptCancelled }

/-- Options fixture with every field absent. -/
def emptyOpts : GitRepositoryOptions :=
  { ServerURL := "", ServerKind := "", Username := "", ApiToken := ""
    Owner := "", RepoName := "", Private := false }

/-- An environment fixture whose interactive organisation picker returns
"myorg". -/
def orgEnv : GitEnv :=
  { baseEnv with pickOrganisation := fun _ _ => .ok "myorg" }

/-- Spec-side restatement (for the refinement claim C4), following the
claim's words: select "the server whose Name or URL equals the store's
designated current server, and if no server matches (or no current server
is designated) ... the first registered server"; `none` when the store has
zero servers. -/
def specCurrentServerChoice (config : AuthConfig) : Option AuthServer :=
  if config.CurrentServer = "" then config.Servers.head?
  else
    match config.Servers.find? (fun s =>
        s.Name = config.CurrentServer || s.URL = config.CurrentServer) with
    | some s => some s
    | none => config.Servers.head?

/-! Helper lemmas about the stages. -/

theorem gitJoinRepoName_ne_empty (owner name : String) :
    gitJoinRepoName owner name ≠ "" := by
  intro h
  have h2 := congrArg String.length h
  unfold gitJoinRepoName at h2
  rw [String.length_append, String.length_append] at h2
  have h3 : ("/" : String).length = 1 := rfl
  have h4 : ("" : String).length = 0 := rfl
  omega

theorem resolveServer_batch_effects (env : GitEnv) (config : AuthConfig)
    (repoOptions : GitRepositoryOptions) (serverArg : Option AuthServer) :
    (resolveServer true env config repoOptions serverArg).2 = [] := by
  unfold resolveServer
  rcases serverArg with _ | s
  · simp only
    split
    · rfl
    · simp only [if_true]
      cases config.Servers <;> simp
  · rfl

theorem resolveUserAuth_batch_effects (env : GitEnv) (server : AuthServer)
    (repoOptions : GitRepositoryOptions) (userAuthArg : Option UserAuth) :
    (resolveUserAuth true env server repoOptions userAuthArg).2 = [] := by
  unfold resolveUserAuth
  rcases userAuthArg with _ | u
  · simp only
    split
    · rfl
    · simp only [if_true]
      cases server.Users <;> simp
  · rfl

theorem applyTokenAndEdit_batch_no_prompt (env : GitEnv) (url : String)
    (repoOptions : GitRepositoryOptions) (userAuth : UserAuth) :
    ∀ e ∈ (applyTokenAndEdit true env url repoOptions userAuth).2,
      e.isPrompt = false := by
  unfold applyTokenAndEdit
  intro e he
  simp only at he
  split at he
  · split at he
    · simp at he
      simp [he, Effect.isPrompt]
    · split at he <;> [skip; split at he] <;>
        simp at he <;> rcases he with h | h <;> simp [h, Effect.isPrompt]
  · simp at he

theorem resolveOwnerStage_batch_effects (env : GitEnv) (provider : GitProvider)
    (repoOptions : GitRepositoryOptions) (gitUsername : String) :
    (resolveOwnerStage true env provider repoOptions gitUsername).2 = [] := by
  unfold resolveOwnerStage GetOwner
  split <;> simp

theorem resolveRepoNameStage_batch_effects (allowExistingRepo : Bool)
    (provider : GitProvider) (defaultRepoName owner : String)
    (repoOptions : GitRepositoryOptions) (responses : List String) :
    (resolveRepoNameStage true allowExistingRepo provider defaultRepoName owner
      repoOptions responses).2 = [] := by
  unfold resolveRepoNameStage GetRepoName
  split <;> simp

theorem askOne_ok_validator (default : String) (validator : String → Option String)
    (responses : List String) (val : String)
    (h : askOne default validator responses = .ok val) : validator val = none := by
  induction responses with
  | nil => simp [askOne] at h
  | cons r rest ih =>
    unfold askOne at h
    simp only at h
    split at h
    · rename_i heq
      rw [Except.ok.injEq] at h
      rw [← h]
      exact heq
    · exact ih h

theorem GetRepoName_ok_ne (batchMode allowExistingRepo : Bool)
    (provider : GitProvider) (defaultRepoName owner : String)
    (responses : List String) (name : String)
    (h : (GetRepoName batchMode allowExistingRepo provider defaultRepoName owner
      responses).1 = .ok name) : name ≠ "" := by
  unfold GetRepoName at h
  split at h
  · simp only [Prod.fst] at h
    rw [Except.ok.injEq] at h
    subst h
    split
    · simp
    · assumption
  · split at h
    · simp at h
    · rename_i heq
      split at h
      · simp at h
      · rename_i hne
        simp only [Prod.fst] at h
        rw [Except.ok.injEq] at h
        subst h
        exact hne

theorem resolveRepoNameStage_ok_ne (batchMode allowExistingRepo : Bool)
    (provider : GitProvider) (defaultRepoName owner : String)
    (repoOptions : GitRepositoryOptions) (responses : List String) (name : String)
    (h : (resolveRepoNameStage batchMode allowExistingRepo provider defaultRepoName
      owner repoOptions responses).1 = .ok name) : name ≠ "" := by
  unfold resolveRepoNameStage at h
  split at h
  · rename_i hne
    simp only [Prod.fst] at h
    rw [Except.ok.injEq] at h
    subst h
    exact hne
  · exact GetRepoName_ok_ne _ _ _ _ _ _ _ h

theorem resolveOwnerStage_ok_ne (batchMode : Bool) (env : GitEnv)
    (provider : GitProvider) (repoOptions : GitRepositoryOptions)
    (gitUsername : String) (owner : String)
    (h : (resolveOwnerStage batchMode env provider repoOptions gitUsername).1 =
      .ok owner)
    (hsrc : repoOptions.Owner ≠ "" ∨ gitUsername ≠ "") : owner ≠ "" := by
  unfold resolveOwnerStage at h
  split at h
  · rename_i hne
    simp only [Prod.fst] at h
    rw [Except.ok.injEq] at h
    subst h
    exact hne
  · rename_i hcond
    have huser : gitUsername ≠ "" := by
      rcases hsrc with h1 | h1
      · exact absurd h1 (by simpa using hcond)
      · exact h1
    unfold GetOwner at h
    split at h
    · simp only [Prod.fst] at h
      rw [Except.ok.injEq] at h
      subst h
      exact huser
    · split at h
      · simp at h
      · simp only [Prod.fst] at h
        rw [Except.ok.injEq] at h
        subst h
        split
        · exact huser
        · assumption

theorem pick_ok_inversion (batchMode : Bool) (env : GitEnv) (config : AuthConfig)
    (defaultRepoName : String) (repoOptions : GitRepositoryOptions)
    (serverArg : Option AuthServer) (userAuthArg : Option UserAuth)
    (allowExistingRepo : Bool) (responses : List String) (data : CreateRepoData)
    (h : (PickNewOrExistingGitRepository batchMode env config defaultRepoName
      repoOptions serverArg userAuthArg allowExistingRepo responses).result =
      .ok data) :
    ∃ server opts1 t1 userAuth t2 u1 t3 provider owner t4 repoName t5,
      resolveServer batchMode env config repoOptions serverArg =
        (.ok (server, opts1), t1) ∧
      resolveUserAuth batchMode env server opts1 userAuthArg = (.ok userAuth, t2) ∧
      applyTokenAndEdit batchMode env server.URL opts1 userAuth = (.ok u1, t3) ∧
      env.createProvider server u1 = .ok provider ∧
      resolveOwnerStage batchMode env provider opts1 u1.Username = (.ok owner, t4) ∧
      resolveRepoNameStage batchMode allowExistingRepo provider defaultRepoName
        owner opts1 responses = (.ok repoName, t5) ∧
      data = { Organisation := owner, RepoName := repoName
               FullName := gitJoinRepoName owner repoName
               PrivateRepo := opts1.Private, User := u1, Server := server
               GitProvider := provider } ∧
      (PickNewOrExistingGitRepository batchMode env config defaultRepoName
        repoOptions serverArg userAuthArg allowExistingRepo responses).opts =
        opts1 ∧
      (PickNewOrExistingGitRepository batchMode env config defaultRepoName
        repoOptions serverArg userAuthArg allowExistingRepo responses).effects =
        t1 ++ t2 ++ t3 ++ t4 ++ t5 := by
  rcases h1 : resolveServer batchMode env config repoOptions serverArg with ⟨r1, t1⟩
  rcases r1 with e1 | ⟨server, opts1⟩
  · simp [PickNewOrExistingGitRepository, h1] at h
  rcases h2 : resolveUserAuth batchMode env server opts1 userAuthArg with ⟨r2, t2⟩
  rcases r2 with e2 | userAuth
  · simp [PickNewOrExistingGitRepository, h1, h2] at h
  rcases h3 : applyTokenAndEdit batchMode env server.URL opts1 userAuth with ⟨r3, t3⟩
  rcases r3 with e3 | u1
  · simp [PickNewOrExistingGitRepository, h1, h2, h3] at h
  rcases h4 : env.createProvider server u1 with e4 | provider
  · simp [PickNewOrExistingGitRepository, h1, h2, h3, h4] at h
  rcases h5 : resolveOwnerStage batchMode env provider opts1 u1.Username with ⟨r5, t4⟩
  rcases r5 with e5 | owner
  · simp [PickNewOrExistingGitRepository, h1, h2, h3, h4, h5] at h
  rcases h6 : resolveRepoNameStage batchMode allowExistingRepo provider
      defaultRepoName owner opts1 responses with ⟨r6, t5⟩
  rcases r6 with e6 | repoName
  · simp [PickNewOrExistingGitRepository, h1, h2, h3, h4, h5, h6] at h
  refine ⟨server, opts1, t1, userAuth, t2, u1, t3, provider, owner, t4, repoName, t5,
    rfl, h2, h3, h4, h5, h6, ?_, ?_, ?_⟩
  · simp [PickNewOrExistingGitRepository, h1, h2, h3, h4, h5, h6] at h
    exact h.symm
  · simp [PickNewOrExistingGitRepository, h1, h2, h3, h4, h5, h6]
  · simp [PickNewOrExistingGitRepository, h1, h2, h3, h4, h5, h6]

theorem resolveServer_ok_frame (batchMode : Bool) (env : GitEnv) (config : AuthConfig)
    (repoOptions : GitRepositoryOptions) (serverArg : Option AuthServer)
    (server : AuthServer) (opts1 : GitRepositoryOptions) (t : List Effect)
    (h : resolveServer batchMode env config repoOptions serverArg =
      (.ok (server, opts1), t)) :
    opts1.ServerKind = repoOptions.ServerKind ∧
    opts1.Username = repoOptions.Username ∧
    opts1.ApiToken = repoOptions.ApiToken ∧
    opts1.Owner = repoOptions.Owner ∧
    opts1.RepoName = repoOptions.RepoName ∧
    opts1.Private = repoOptions.Private := by
  unfold resolveServer at h
  rcases serverArg with _ | s
  · simp only at h
    split at h
    · simp only [Prod.mk.injEq, Except.ok.injEq] at h
      rcases h with ⟨⟨_, h⟩, _⟩
      subst h
      exact ⟨rfl, rfl, rfl, rfl, rfl, rfl⟩
    · split at h
      · split at h
        · simp at h
        · simp only [Prod.mk.injEq, Except.ok.injEq] at h
          rcases h with ⟨⟨_, h⟩, _⟩
          subst h
          exact ⟨rfl, rfl, rfl, rfl, rfl, rfl⟩
      · split at h
        · simp at h
        · simp only [Prod.mk.injEq, Except.ok.injEq] at h
          rcases h with ⟨⟨_, h⟩, _⟩
          subst h
          exact ⟨rfl, rfl, rfl, rfl, rfl, rfl⟩
  · simp only [Prod.mk.injEq, Except.ok.injEq] at h
    rcases h with ⟨⟨_, h⟩, _⟩
    subst h
    exact ⟨rfl, rfl, rfl, rfl, rfl, rfl⟩

theorem pick_opts_eq (batchMode : Bool) (env : GitEnv) (config : AuthConfig)
    (defaultRepoName : String) (repoOptions : GitRepositoryOptions)
    (serverArg : Option AuthServer) (userAuthArg : Option UserAuth)
    (allowExistingRepo : Bool) (responses : List String) :
    (PickNewOrExistingGitRepository batchMode env config defaultRepoName
      repoOptions serverArg userAuthArg allowExistingRepo responses).opts =
    (match (resolveServer batchMode env config repoOptions serverArg).1 with
     | .error _ => repoOptions
     | .ok (_, opts1) => opts1) := by
  rcases h1 : resolveServer batchMode env config repoOptions serverArg with ⟨r1, t1⟩
  rcases r1 with e1 | ⟨server, opts1⟩
  · simp [PickNewOrExistingGitRepository, h1]
  rcases h2 : resolveUserAuth batchMode env server opts1 userAuthArg with ⟨r2, t2⟩
  rcases r2 with e2 | userAuth
  · simp [PickNewOrExistingGitRepository, h1, h2]
  rcases h3 : applyTokenAndEdit batchMode env server.URL opts1 userAuth with ⟨r3, t3⟩
  rcases r3 with e3 | u1
  · simp [PickNewOrExistingGitRepository, h1, h2, h3]
  rcases h4 : env.createProvider server u1 with e4 | provider
  · simp [PickNewOrExistingGitRepository, h1, h2, h3, h4]
  rcases h5 : resolveOwnerStage batchMode env provider opts1 u1.Username with ⟨r5, t4⟩
  rcases r5 with e5 | owner
  · simp [PickNewOrExistingGitRepository, h1, h2, h3, h4, h5]
  rcases h6 : resolveRepoNameStage batchMode allowExistingRepo provider
      defaultRepoName owner opts1 responses with ⟨r6, t5⟩
  rcases r6 with e6 | repoName
  · simp [PickNewOrExistingGitRepository, h1, h2, h3, h4, h5, h6]
  · simp [PickNewOrExistingGitRepository, h1, h2, h3, h4, h5, h6]

theorem pick_result_private (batchMode : Bool) (env : GitEnv) (config : AuthConfig)
    (defaultRepoName : String) (repoOptions : GitRepositoryOptions)
    (serverArg : Option AuthServer) (userAuthArg : Option UserAuth)
    (allowExistingRepo : Bool) (responses : List String) (data : CreateRepoData)
    (h : (PickNewOrExistingGitRepository batchMode env config defaultRepoName
      repoOptions serverArg userAuthArg allowExistingRepo responses).result =
      .ok data) : data.PrivateRepo = repoOptions.Private := by
  obtain ⟨server, opts1, t1, userAuth, t2, u1, t3, provider, owner, t4, repoName, t5,
    hs, _, _, _, _, _, hdata, _, _⟩ :=
    pick_ok_inversion batchMode env config defaultRepoName repoOptions serverArg
      userAuthArg allowExistingRepo responses data h
  obtain ⟨_, _, _, _, _, hp⟩ :=
    resolveServer_ok_frame batchMode env config repoOptions serverArg server opts1 t1 hs
  rw [hdata]
  exact hp

/-! Claim theorems. -/

/-- C6: in batch mode, when the options do not specify a repository name,
the name stage (`GetRepoName`) returns the caller-supplied default name,
and the fixed placeholder "dummy" when that default is empty; the returned
name is non-empty and the stage never returns an error (and consults no
prompt). -/
theorem claim_C6_batch_default_name (allowExistingRepo : Bool)
    (provider : GitProvider) (defaultRepoName owner : String)
    (responses : List String) :
    GetRepoName true allowExistingRepo provider defaultRepoName owner responses =
      (.ok (if defaultRepoName = "" then "dummy" else defaultRepoName), []) ∧
    (if defaultRepoName = "" then "dummy" else defaultRepoName) ≠ "" := by
  constructor
  · rfl
  · split
    · decide
    · assumption

/-- C5: whenever the options' `RepoName` is non-empty (and either provider
validation would accept it or existing repositories are allowed), a
successful resolution returns exactly the supplied `RepoName`. -/
theorem claim_C5_repo_name_exact (batchMode : Bool) (env : GitEnv)
    (config : AuthConfig) (defaultRepoName : String)
    (repoOptions : GitRepositoryOptions) (serverArg : Option AuthServer)
    (userAuthArg : Option UserAuth) (allowExistingRepo : Bool)
    (responses : List String)
    (hname : repoOptions.RepoName ≠ "")
    (hval : allowExistingRepo = true ∨
      ∀ s u p, env.createProvider s u = .ok p →
        p.validateRepositoryName repoOptions.Owner repoOptions.RepoName = none) :
    ∀ data, (PickNewOrExistingGitRepository batchMode env config defaultRepoName
      repoOptions serverArg userAuthArg allowExistingRepo responses).result =
      .ok data → data.RepoName = repoOptions.RepoName := by
  intro data h
  obtain ⟨server, opts1, t1, userAuth, t2, u1, t3, provider, owner, t4, repoName, t5,
    hs, _, _, _, _, hrn, hdata, _, _⟩ :=
    pick_ok_inversion batchMode env config defaultRepoName repoOptions serverArg
      userAuthArg allowExistingRepo responses data h
  obtain ⟨_, _, _, _, hR, _⟩ :=
    resolveServer_ok_frame batchMode env config repoOptions serverArg server opts1 t1 hs
  unfold resolveRepoNameStage at hrn
  rw [if_pos (by rw [hR]; exact hname)] at hrn
  simp only [Prod.mk.injEq, Except.ok.injEq] at hrn
  rw [hdata]
  simp only
  rw [← hrn.1, hR]

/-- Witness for C5: a concrete batch invocation with `RepoName := "myapp"`
supplied resolves to exactly that name. -/
theorem claim_C5_repo_name_exact_witness :
    ({ emptyOpts with RepoName := "myapp" } : GitRepositoryOptions).RepoName ≠ "" ∧
    (PickNewOrExistingGitRepository true baseEnv exampleConfig "proj"
      { emptyOpts with RepoName := "myapp" } none none false []).result =
      .ok { Organisation := "alice", RepoName := "myapp", FullName := "alice/myapp"
            PrivateRepo := false, User := aliceAuth, Server := exampleServer
            GitProvider := acceptAllProvider } ∧
    ({ Organisation := "alice", RepoName := "myapp", FullName := "alice/myapp"
       PrivateRepo := false, User := aliceAuth, Server := exampleServer
       GitProvider := acceptAllProvider } : CreateRepoData).RepoName =
      ({ emptyOpts with RepoName := "myapp" } : GitRepositoryOptions).RepoName :=
  ⟨by decide, rfl,
    claim_C5_repo_name_exact true baseEnv exampleConfig "proj"
      { emptyOpts with RepoName := "myapp" } none none false []
      (by decide)
      (.inr (fun s u p hp => by
        simp only [baseEnv] at hp
        rw [Except.ok.injEq] at hp
        rw [← hp]
        rfl))
      _ rfl⟩

/-- C10: on every invocation the returned result's `PrivateRepo` equals the
options' `Private` flag exactly, and the resolver leaves every option field
other than `ServerURL` unmodified (the only option mutation is recording
the chosen server's URL; the credential-token application touches the
credential, not the options). -/
theorem claim_C10_private_flag_frame (batchMode : Bool) (env : GitEnv)
    (config : AuthConfig) (defaultRepoName : String)
    (repoOptions : GitRepositoryOptions) (serverArg : Option AuthServer)
    (userAuthArg : Option UserAuth) (allowExistingRepo : Bool)
    (responses : List String) :
    (∀ data, (PickNewOrExistingGitRepository batchMode env config defaultRepoName
        repoOptions serverArg userAuthArg allowExistingRepo responses).result =
        .ok data → data.PrivateRepo = repoOptions.Private) ∧
    (PickNewOrExistingGitRepository batchMode env config defaultRepoName
      repoOptions serverArg userAuthArg allowExistingRepo responses).opts.ServerKind =
      repoOptions.ServerKind ∧
    (PickNewOrExistingGitRepository batchMode env config defaultRepoName
      repoOptions serverArg userAuthArg allowExistingRepo responses).opts.Username =
      repoOptions.Username ∧
    (PickNewOrExistingGitRepository batchMode env config defaultRepoName
      repoOptions serverArg userAuthArg allowExistingRepo responses).opts.ApiToken =
      repoOptions.ApiToken ∧
    (PickNewOrExistingGitRepository batchMode env config defaultRepoName
      repoOptions serverArg userAuthArg allowExistingRepo responses).opts.Owner =
      repoOptions.Owner ∧
    (PickNewOrExistingGitRepository batchMode env config defaultRepoName
      repoOptions serverArg userAuthArg allowExistingRepo responses).opts.RepoName =
      repoOptions.RepoName ∧
    (PickNewOrExistingGitRepository batchMode env config defaultRepoName
      repoOptions serverArg userAuthArg allowExistingRepo responses).opts.Private =
      repoOptions.Private := by
  refine ⟨fun data h => pick_result_private batchMode env config defaultRepoName
    repoOptions serverArg userAuthArg allowExistingRepo responses data h, ?_⟩
  rw [pick_opts_eq]
  rcases h1 : (resolveServer batchMode env config repoOptions serverArg).1 with e1 | ⟨server, opts1⟩
  · simp
  · rcases h2 : resolveServer batchMode env config repoOptions serverArg with ⟨r1, t1⟩
    rw [h2] at h1
    simp only at h1
    subst h1
    obtain ⟨k1, k2, k3, k4, k5, k6⟩ :=
      resolveServer_ok_frame batchMode env config repoOptions serverArg server opts1 t1 h2
    simp [k1, k2, k3, k4, k5, k6]

/-- Witness for C10: the inner implication instantiated at a concrete
successful batch invocation. -/
theorem claim_C10_private_flag_frame_witness :
    (PickNewOrExistingGitRepository true baseEnv exampleConfig "proj"
      { emptyOpts with Private := true } none none false []).result =
      .ok { Organisation := "alice", RepoName := "proj", FullName := "alice/proj"
            PrivateRepo := true, User := aliceAuth, Server := exampleServer
            GitProvider := acceptAllProvider } ∧
    ({ Organisation := "alice", RepoName := "proj", FullName := "alice/proj"
       PrivateRepo := true, User := aliceAuth, Server := exampleServer
       GitProvider := acceptAllProvider } : CreateRepoData).PrivateRepo =
      ({ emptyOpts with Private := true } : GitRepositoryOptions).Private :=
  ⟨rfl,
    (claim_C10_private_flag_frame true baseEnv exampleConfig "proj"
      { emptyOpts with Private := true } none none false []).1 _ rfl⟩

theorem resolveServer_batch_none_eq (env : GitEnv) (config : AuthConfig)
    (repoOptions : GitRepositoryOptions) (hurl : repoOptions.ServerURL = "") :
    resolveServer true env config repoOptions none =
      (match specCurrentServerChoice config with
       | none => (.error .noServersConfigured, [])
       | some s => (.ok (s, { repoOptions with ServerURL := s.URL }), [])) := by
  unfold resolveServer specCurrentServerChoice
  simp only [hurl, ne_eq, not_true_eq_false, if_false, if_true]
  cases hS : config.Servers with
  | nil =>
    by_cases hc : config.CurrentServer = "" <;> simp [hc]
  | cons s0 tl =>
    by_cases hc : config.CurrentServer = ""
    · simp [hc]
    · simp only [hc, if_false, ne_eq, not_false_eq_true, if_true, List.head?]
      cases hf : (s0 :: tl).find? (fun s =>
          s.Name = config.CurrentServer || s.URL = config.CurrentServer) <;>
        simp [hf]

theorem pick_server_error (batchMode : Bool) (env : GitEnv) (config : AuthConfig)
    (defaultRepoName : String) (repoOptions : GitRepositoryOptions)
    (serverArg : Option AuthServer) (userAuthArg : Option UserAuth)
    (allowExistingRepo : Bool) (responses : List String) (e : GitErr)
    (t : List Effect)
    (h : resolveServer batchMode env config repoOptions serverArg = (.error e, t)) :
    (PickNewOrExistingGitRepository batchMode env config defaultRepoName
      repoOptions serverArg userAuthArg allowExistingRepo responses).result =
      .error e := by
  simp [PickNewOrExistingGitRepository, h]

/-- C4: in batch mode with no server argument and no `ServerURL` option,
the resolver fails with the no-servers-configured error when the store is
empty; otherwise it selects the store's designated current server by
name-or-URL match, falling back to the first registered server (the chosen
server is recorded in the options' `ServerURL` and is the `Server` of any
successful result). -/
theorem claim_C4_batch_server_selection (env : GitEnv) (config : AuthConfig)
    (defaultRepoName : String) (repoOptions : GitRepositoryOptions)
    (userAuthArg : Option UserAuth) (allowExistingRepo : Bool)
    (responses : List String) (hurl : repoOptions.ServerURL = "") :
    (config.Servers = [] →
      (PickNewOrExistingGitRepository true env config defaultRepoName repoOptions
        none userAuthArg allowExistingRepo responses).result =
        .error .noServersConfigured) ∧
    (∀ s, specCurrentServerChoice config = some s →
      (PickNewOrExistingGitRepository true env config defaultRepoName repoOptions
        none userAuthArg allowExistingRepo responses).opts.ServerURL = s.URL ∧
      ∀ data, (PickNewOrExistingGitRepository true env config defaultRepoName
        repoOptions none userAuthArg allowExistingRepo responses).result =
        .ok data → data.Server = s) := by
  have hchar := resolveServer_batch_none_eq env config repoOptions hurl
  constructor
  · intro hnil
    have hnone : specCurrentServerChoice config = none := by
      simp [specCurrentServerChoice, hnil]
    rw [hnone] at hchar
    exact pick_server_error true env config defaultRepoName repoOptions none
      userAuthArg allowExistingRepo responses _ _ hchar
  · intro s hsome
    rw [hsome] at hchar
    constructor
    · rw [pick_opts_eq, hchar]
    · intro data h
      obtain ⟨server, opts1, t1, userAuth, t2, u1, t3, provider, owner, t4,
        repoName, t5, hs, _, _, _, _, _, hdata, _, _⟩ :=
        pick_ok_inversion true env config defaultRepoName repoOptions none
          userAuthArg allowExistingRepo responses data h
      rw [hchar] at hs
      simp only [Prod.mk.injEq, Except.ok.injEq] at hs
      rw [hdata]
      simp only
      exact hs.1.1.symm

/-- Witness for C4: with the fixture store the current-server designation
matches `exampleServer` by name, and the pipeline selects it. -/
theorem claim_C4_batch_server_selection_witness :
    emptyOpts.ServerURL = "" ∧
    specCurrentServerChoice exampleConfig = some exampleServer ∧
    (PickNewOrExistingGitRepository true baseEnv exampleConfig "proj" emptyOpts
      none none false []).opts.ServerURL = exampleServer.URL ∧
    (PickNewOrExistingGitRepository true baseEnv exampleConfig "proj" emptyOpts
      none none false []).result =
      .ok { Organisation := "alice", RepoName := "proj", FullName := "alice/proj"
            PrivateRepo := false, User := aliceAuth, Server := exampleServer
            GitProvider := acceptAllProvider } ∧
    ({ Organisation := "alice", RepoName := "proj", FullName := "alice/proj"
       PrivateRepo := false, User := aliceAuth, Server := exampleServer
       GitProvider := acceptAllProvider } : CreateRepoData).Server = exampleServer := by
  refine ⟨rfl, by decide, ?_, rfl, ?_⟩
  · exact ((claim_C4_batch_server_selection baseEnv exampleConfig "proj" emptyOpts
      none false [] rfl).2 exampleServer (by decide)).1
  · exact ((claim_C4_batch_server_selection baseEnv exampleConfig "proj" emptyOpts
      none false [] rfl).2 exampleServer (by decide)).2 _ rfl

theorem pick_batch_effects_no_prompt (env : GitEnv) (config : AuthConfig)
    (defaultRepoName : String) (repoOptions : GitRepositoryOptions)
    (serverArg : Option AuthServer) (userAuthArg : Option UserAuth)
    (allowExistingRepo : Bool) (responses : List String) :
    (PickNewOrExistingGitRepository true env config defaultRepoName repoOptions
      serverArg userAuthArg allowExistingRepo responses).effects.filter
      (fun e => e.isPrompt) = [] := by
  rcases h1 : resolveServer true env config repoOptions serverArg with ⟨r1, t1⟩
  have ht1 : t1 = [] := by
    have hx := resolveServer_batch_effects env config repoOptions serverArg
    rw [h1] at hx
    exact hx
  subst ht1
  rcases r1 with e1 | ⟨server, opts1⟩
  · simp [PickNewOrExistingGitRepository, h1]
  rcases h2 : resolveUserAuth true env server opts1 userAuthArg with ⟨r2, t2⟩
  have ht2 : t2 = [] := by
    have hx := resolveUserAuth_batch_effects env server opts1 userAuthArg
    rw [h2] at hx
    exact hx
  subst ht2
  rcases r2 with e2 | userAuth
  · simp [PickNewOrExistingGitRepository, h1, h2]
  rcases h3 : applyTokenAndEdit true env server.URL opts1 userAuth with ⟨r3, t3⟩
  have ht3 : t3.filter (fun e => e.isPrompt) = [] := by
    refine List.filter_eq_nil_iff.mpr ?_
    intro e he
    have hx := applyTokenAndEdit_batch_no_prompt env server.URL opts1 userAuth e
    rw [h3] at hx
    simp [hx he]
  rcases r3 with e3 | u1
  · simp [PickNewOrExistingGitRepository, h1, h2, h3, List.filter_append, ht3]
  rcases h4 : env.createProvider server u1 with e4 | provider
  · simp [PickNewOrExistingGitRepository, h1, h2, h3, h4, List.filter_append, ht3]
  rcases h5 : resolveOwnerStage true env provider opts1 u1.Username with ⟨r5, t4⟩
  have ht4 : t4 = [] := by
    have hx := resolveOwnerStage_batch_effects env provider opts1 u1.Username
    rw [h5] at hx
    exact hx
  subst ht4
  rcases r5 with e5 | owner
  · simp [PickNewOrExistingGitRepository, h1, h2, h3, h4, h5, List.filter_append, ht3]
  rcases h6 : resolveRepoNameStage true allowExistingRepo provider defaultRepoName
      owner opts1 responses with ⟨r6, t5⟩
  have ht5 : t5 = [] := by
    have hx := resolveRepoNameStage_batch_effects allowExistingRepo provider
      defaultRepoName owner opts1 responses
    rw [h6] at hx
    exact hx
  subst ht5
  rcases r6 with e6 | repoName
  · simp [PickNewOrExistingGitRepository, h1, h2, h3, h4, h5, h6,
      List.filter_append, ht3]
  · simp [PickNewOrExistingGitRepository, h1, h2, h3, h4, h5, h6,
      List.filter_append, ht3]

/-- C3: every batch-mode invocation whose store has at least one server and
at least one valid credential never reaches the prompt engine — the effect
trace contains no prompt-engine call (prompt calls are exactly the points
that block on human input). -/
theorem claim_C3_batch_never_prompts (env : GitEnv) (config : AuthConfig)
    (defaultRepoName : String) (repoOptions : GitRepositoryOptions)
    (serverArg : Option AuthServer) (userAuthArg : Option UserAuth)
    (allowExistingRepo : Bool) (responses : List String)
    (hservers : config.Servers ≠ [])
    (hvalid : ∃ s ∈ config.Servers, ∃ u ∈ s.Users, u.IsInvalid = false) :
    (PickNewOrExistingGitRepository true env config defaultRepoName repoOptions
      serverArg userAuthArg allowExistingRepo responses).effects.filter
      (fun e => e.isPrompt) = [] :=
  pick_batch_effects_no_prompt env config defaultRepoName repoOptions serverArg
    userAuthArg allowExistingRepo responses

/-- Witness for C3: the fixture store has one server and one valid
credential, and the concrete batch run produces no prompt effect. -/
theorem claim_C3_batch_never_prompts_witness :
    exampleConfig.Servers ≠ [] ∧
    (∃ s ∈ exampleConfig.Servers, ∃ u ∈ s.Users, u.IsInvalid = false) ∧
    (PickNewOrExistingGitRepository true baseEnv exampleConfig "proj" emptyOpts
      none none false []).effects.filter (fun e => e.isPrompt) = [] :=
  ⟨by decide, by decide,
    claim_C3_batch_never_prompts baseEnv exampleConfig "proj" emptyOpts none none
      false [] (by decide) (by decide)⟩

/-- C8: owner resolution — an options-supplied owner is used as is; with no
owner supplied, batch mode defaults to the resolved credential's username,
and interactive mode uses the organisation the user picked, falling back to
the username on an empty selection. -/
theorem claim_C8_owner_resolution (batchMode : Bool) (env : GitEnv)
    (config : AuthConfig) (defaultRepoName : String)
    (repoOptions : GitRepositoryOptions) (serverArg : Option AuthServer)
    (userAuthArg : Option UserAuth) (allowExistingRepo : Bool)
    (responses : List String) (provider : GitProvider) (gitUsername org : String)
    (howner : repoOptions.Owner ≠ "")
    (hpick : env.pickOrganisation provider gitUsername = .ok org) :
    (∀ data, (PickNewOrExistingGitRepository batchMode env config defaultRepoName
        repoOptions serverArg userAuthArg allowExistingRepo responses).result =
        .ok data → data.Organisation = repoOptions.Owner) ∧
    GetOwner true env provider gitUsername = (.ok gitUsername, []) ∧
    GetOwner false env provider gitUsername =
      (.ok (if org = "" then gitUsername else org), [.promptOrganisation]) := by
  refine ⟨?_, rfl, ?_⟩
  · intro data h
    obtain ⟨server, opts1, t1, userAuth, t2, u1, t3, provider1, owner, t4,
      repoName, t5, hs, _, _, _, how, _, hdata, _, _⟩ :=
      pick_ok_inversion batchMode env config defaultRepoName repoOptions serverArg
        userAuthArg allowExistingRepo responses data h
    obtain ⟨_, _, _, hO, _, _⟩ :=
      resolveServer_ok_frame batchMode env config repoOptions serverArg server
        opts1 t1 hs
    unfold resolveOwnerStage at how
    rw [if_pos (by rw [hO]; exact howner)] at how
    simp only [Prod.mk.injEq, Except.ok.injEq] at how
    rw [hdata]
    simp only
    rw [← how.1, hO]
  · unfold GetOwner
    simp [hpick]

/-- Witness for C8: owner supplied in the options is used; batch falls back
to the username; an interactive pick of "myorg" is used. -/
theorem claim_C8_owner_resolution_witness :
    ({ emptyOpts with Owner := "core" } : GitRepositoryOptions).Owner ≠ "" ∧
    orgEnv.pickOrganisation acceptAllProvider "alice" = .ok "myorg" ∧
    (PickNewOrExistingGitRepository true orgEnv exampleConfig "proj"
      { emptyOpts with Owner := "core" } none none false []).result =
      .ok { Organisation := "core", RepoName := "proj", FullName := "core/proj"
            PrivateRepo := false, User := aliceAuth, Server := exampleServer
            GitProvider := acceptAllProvider } ∧
    ({ Organisation := "core", RepoName := "proj", FullName := "core/proj"
       PrivateRepo := false, User := aliceAuth, Server := exampleServer
       GitProvider := acceptAllProvider } : CreateRepoData).Organisation =
      ({ emptyOpts with Owner := "core" } : GitRepositoryOptions).Owner ∧
    GetOwner true orgEnv acceptAllProvider "alice" = (.ok "alice", []) ∧
    GetOwner false orgEnv acceptAllProvider "alice" =
      (.ok "myorg", [.promptOrganisation]) := by
  have h := claim_C8_owner_resolution true orgEnv exampleConfig "proj"
    { emptyOpts with Owner := "core" } none none false [] acceptAllProvider
    "alice" "myorg" (by decide) rfl
  exact ⟨by decide, rfl, rfl, h.1 _ rfl, h.2.1, h.2.2⟩

/-- C9: with server, valid credential, owner and repository name all
supplied, running the resolver a second time on the options state left by
the first run yields a result equal to the first in every one of the listed
fields. -/
theorem claim_C9_idempotent (batchMode : Bool) (env : GitEnv)
    (config : AuthConfig) (defaultRepoName : String)
    (repoOptions : GitRepositoryOptions) (serverArg : Option AuthServer)
    (userAuthArg : Option UserAuth) (allowExistingRepo : Bool)
    (responses : List String) (s : AuthServer) (u : UserAuth)
    (hs : serverArg = some s) (hu : userAuthArg = some u)
    (hvalid : u.IsInvalid = false)
    (howner : repoOptions.Owner ≠ "") (hname : repoOptions.RepoName ≠ "") :
    ∀ d1 d2,
      (PickNewOrExistingGitRepository batchMode env config defaultRepoName
        repoOptions serverArg userAuthArg allowExistingRepo responses).result =
        .ok d1 →
      (PickNewOrExistingGitRepository batchMode env config defaultRepoName
        (PickNewOrExistingGitRepository batchMode env config defaultRepoName
          repoOptions serverArg userAuthArg allowExistingRepo responses).opts
        serverArg userAuthArg allowExistingRepo responses).result = .ok d2 →
      d1.Organisation = d2.Organisation ∧ d1.RepoName = d2.RepoName ∧
      d1.FullName = d2.FullName ∧ d1.PrivateRepo = d2.PrivateRepo ∧
      d1.User = d2.User ∧ d1.Server = d2.Server := by
  subst hs
  subst hu
  have hopts : (PickNewOrExistingGitRepository batchMode env config defaultRepoName
      repoOptions (some s) (some u) allowExistingRepo responses).opts =
      repoOptions := by
    rw [pick_opts_eq]
    rfl
  intro d1 d2 h1 h2
  rw [hopts, h1, Except.ok.injEq] at h2
  rw [h2]
  exact ⟨rfl, rfl, rfl, rfl, rfl, rfl⟩

/-- Witness for C9: a fully specified concrete invocation; both runs return
the same record. -/
theorem claim_C9_idempotent_witness :
    aliceAuth.IsInvalid = false ∧
    ({ emptyOpts with Owner := "core", RepoName := "myapp" } :
      GitRepositoryOptions).Owner ≠ "" ∧
    ({ emptyOpts with Owner := "core", RepoName := "myapp" } :
      GitRepositoryOptions).RepoName ≠ "" ∧
    (PickNewOrExistingGitRepository true baseEnv exampleConfig "proj"
      { emptyOpts with Owner := "core", RepoName := "myapp" }
      (some exampleServer) (some aliceAuth) false []).result =
      .ok { Organisation := "core", RepoName := "myapp", FullName := "core/myapp"
            PrivateRepo := false, User := aliceAuth, Server := exampleServer
            GitProvider := acceptAllProvider } ∧
    ({ Organisation := "core", RepoName := "myapp", FullName := "core/myapp"
       PrivateRepo := false, User := aliceAuth, Server := exampleServer
       GitProvider := acceptAllProvider } : CreateRepoData).Organisation =
      ({ Organisation := "core", RepoName := "myapp", FullName := "core/myapp"
         PrivateRepo := false, User := aliceAuth, Server := exampleServer
         GitProvider := acceptAllProvider } : CreateRepoData).Organisation := by
  refine ⟨by decide, by decide, by decide, rfl, ?_⟩
  exact (claim_C9_idempotent true baseEnv exampleConfig "proj"
    { emptyOpts with Owner := "core", RepoName := "myapp" }
    (some exampleServer) (some aliceAuth) false [] exampleServer aliceAuth
    rfl rfl (by decide) (by decide) (by decide) _ _ rfl rfl).1

/-- Counterexample to C1 as stated: an invocation that enters the edit flow
(the selected credential is invalid and no options token is supplied) in
which the edit step itself fails — the effect trace is exactly the edit
call, with no store write, and resolution returns the edit step's error.
The claim's "for every invocation that enters the edit flow, the persist
call happens" is false at this input. -/
theorem claim_C1_counterexample :
    (PickNewOrExistingGitRepository true cancelEditEnv exampleConfig "proj"
      emptyOpts (some exampleServer) (some noTokenAuth) false []).effects =
      [.editUserAuth true] ∧
    (PickNewOrExistingGitRepository true cancelEditEnv exampleConfig "proj"
      emptyOpts (some exampleServer) (some noTokenAuth) false []).result =
      .error .promptCancelled :=
  ⟨rfl, rfl⟩

/-- C1 (amended): whenever the credential edit flow runs and the edit step
itself succeeds, the persist call to the store does occur, and it occurs
before the final validity check — in particular the store write happens
even when the flow then fails with the incomplete-authentication error
because the credential is still invalid.  (When the edit step itself fails,
resolution aborts without persisting.) -/
theorem claim_C1_edit_flow_persists (batchMode : Bool) (env : GitEnv)
    (url : String) (repoOptions : GitRepositoryOptions) (userAuth u2 : UserAuth)
    (hinv : (applyTokenFromOpts repoOptions userAuth).IsInvalid = true)
    (hedit : env.editUserAuth batchMode (applyTokenFromOpts repoOptions userAuth) =
      .ok u2) :
    Effect.saveUserAuth url u2 ∈
      (applyTokenAndEdit batchMode env url repoOptions userAuth).2 ∧
    (u2.IsInvalid = true → env.saveUserAuth url u2 = none →
      (applyTokenAndEdit batchMode env url repoOptions userAuth).1 =
        .error .incompleteAuth) := by
  unfold applyTokenAndEdit
  simp only [hinv, if_true, hedit]
  cases hsave : env.saveUserAuth url u2 with
  | none =>
    constructor
    · by_cases hi : u2.IsInvalid = true
      · simp [hi]
      · simp [hi]
    · intro hrem _
      simp [hrem]
  | some msg =>
    constructor
    · simp
    · intro _ hnone
      exact absurd hnone (by simp)

/-- Witness for C1 (amended): a concrete run of the edit block whose edit
step returns a still-invalid credential; the store write is in the trace
and the block fails with the incomplete-authentication error. -/
theorem claim_C1_edit_flow_persists_witness :
    (applyTokenFromOpts emptyOpts noTokenAuth).IsInvalid = true ∧
    baseEnv.editUserAuth true (applyTokenFromOpts emptyOpts noTokenAuth) =
      .ok noTokenAuth ∧
    Effect.saveUserAuth "https://git.example.com" noTokenAuth ∈
      (applyTokenAndEdit true baseEnv "https://git.example.com" emptyOpts
        noTokenAuth).2 ∧
    noTokenAuth.IsInvalid = true ∧
    baseEnv.saveUserAuth "https://git.example.com" noTokenAuth = none ∧
    (applyTokenAndEdit true baseEnv "https://git.example.com" emptyOpts
      noTokenAuth).1 = .error .incompleteAuth := by
  have h := claim_C1_edit_flow_persists true baseEnv "https://git.example.com"
    emptyOpts noTokenAuth noTokenAuth (by decide) rfl
  exact ⟨by decide, rfl, h.1, by decide, rfl, h.2 (by decide) rfl⟩

/-- Counterexample to C2 as stated: a successful batch resolution whose
credential has an empty username and whose options carry no owner — the
returned `Organisation` is the empty string, so not every field of a
successful result is non-empty. -/
theorem claim_C2_counterexample :
    (PickNewOrExistingGitRepository true baseEnv exampleConfig "proj" emptyOpts
      (some exampleServer) (some anonAuth) false []).result =
      .ok { Organisation := "", RepoName := "proj", FullName := "/proj"
            PrivateRepo := false, User := anonAuth, Server := exampleServer
            GitProvider := acceptAllProvider } ∧
    ({ Organisation := "", RepoName := "proj", FullName := "/proj"
       PrivateRepo := false, User := anonAuth, Server := exampleServer
       GitProvider := acceptAllProvider } : CreateRepoData).Organisation = "" :=
  ⟨rfl, rfl⟩

/-- C2 (amended): every successful resolution returns a fully assembled
result — `RepoName` and `FullName` are non-empty, and `User`, `Server` and
`GitProvider` are the resolved values (structurally present in the
embedding); `Organisation` is non-empty provided the options supplied an
owner or the resolved credential's username is non-empty (with an empty
username and no owner it can be empty — see the counterexample).  On error
no result is produced at all (`Except.error` carries no data). -/
theorem claim_C2_success_populated (batchMode : Bool) (env : GitEnv)
    (config : AuthConfig) (defaultRepoName : String)
    (repoOptions : GitRepositoryOptions) (serverArg : Option AuthServer)
    (userAuthArg : Option UserAuth) (allowExistingRepo : Bool)
    (responses : List String) :
    ∀ data, (PickNewOrExistingGitRepository batchMode env config defaultRepoName
      repoOptions serverArg userAuthArg allowExistingRepo responses).result =
      .ok data →
      data.RepoName ≠ "" ∧ data.FullName ≠ "" ∧
      ((repoOptions.Owner ≠ "" ∨ data.User.Username ≠ "") →
        data.Organisation ≠ "") := by
  intro data h
  obtain ⟨server, opts1, t1, userAuth, t2, u1, t3, provider, owner, t4, repoName,
    t5, hs, _, _, _, how, hrn, hdata, _, _⟩ :=
    pick_ok_inversion batchMode env config defaultRepoName repoOptions serverArg
      userAuthArg allowExistingRepo responses data h
  obtain ⟨_, _, _, hO, _, _⟩ :=
    resolveServer_ok_frame batchMode env config repoOptions serverArg server
      opts1 t1 hs
  have hname : repoName ≠ "" :=
    resolveRepoNameStage_ok_ne batchMode allowExistingRepo provider
      defaultRepoName owner opts1 responses repoName (by rw [hrn])
  subst hdata
  refine ⟨hname, gitJoinRepoName_ne_empty owner repoName, ?_⟩
  intro hsrc
  exact resolveOwnerStage_ok_ne batchMode env provider opts1 u1.Username owner
    (by rw [how]) (by rw [hO]; exact hsrc)

/-- Witness for C2 (amended): the standard successful batch run has a
non-empty name, full name and organisation. -/
theorem claim_C2_success_populated_witness :
    (PickNewOrExistingGitRepository true baseEnv exampleConfig "proj" emptyOpts
      none none false []).result =
      .ok { Organisation := "alice", RepoName := "proj", FullName := "alice/proj"
            PrivateRepo := false, User := aliceAuth, Server := exampleServer
            GitProvider := acceptAllProvider } ∧
    ({ Organisation := "alice", RepoName := "proj", FullName := "alice/proj"
       PrivateRepo := false, User := aliceAuth, Server := exampleServer
       GitProvider := acceptAllProvider } : CreateRepoData).RepoName ≠ "" ∧
    ({ Organisation := "alice", RepoName := "proj", FullName := "alice/proj"
       PrivateRepo := false, User := aliceAuth, Server := exampleServer
       GitProvider := acceptAllProvider } : CreateRepoData).FullName ≠ "" ∧
    ({ Organisation := "alice", RepoName := "proj", FullName := "alice/proj"
       PrivateRepo := false, User := aliceAuth, Server := exampleServer
       GitProvider := acceptAllProvider } : CreateRepoData).Organisation ≠ "" := by
  have h := claim_C2_success_populated true baseEnv exampleConfig "proj" emptyOpts
    none none false []
    { Organisation := "alice", RepoName := "proj", FullName := "alice/proj"
      PrivateRepo := false, User := aliceAuth, Server := exampleServer
      GitProvider := acceptAllProvider } rfl
  exact ⟨rfl, h.1, h.2.1, h.2.2 (Or.inr (by decide))⟩

/-- Counterexample to C7 as stated: a batch invocation whose provider
rejects every name — the batch name stage nevertheless succeeds with the
default name and propagates no error, because batch mode never invokes the
provider's name validation. -/
theorem claim_C7_counterexample :
    rejectAllProvider.validateRepositoryName "alice" "taken" =
      some "name already in use" ∧
    GetRepoName true false rejectAllProvider "taken" "alice" [] =
      (.ok "taken", []) :=
  ⟨rfl, rfl⟩

theorem askOne_cons_rejected (default bad : String)
    (validator : String → Option String) (rest : List String) (msg : String)
    (h : validator (if bad = "" then default else bad) = some msg) :
    askOne default validator (bad :: rest) = askOne default validator rest := by
  unfold askOne
  simp only [h]
  cases rest <;> rfl

/-- C7 (amended): when provider-side repository-name validation fails,
interactive mode re-prompts instead of propagating the error (a rejected
response is skipped and the next response is consulted); in batch mode the
provider's name validation is never invoked and the name stage never
returns a validation error — the batch outcome is independent of the
provider and always the default-or-placeholder name. -/
theorem claim_C7_validation_handling (allowExistingRepo : Bool)
    (provider provider2 : GitProvider) (defaultRepoName owner : String)
    (responses : List String) (bad msg : String)
    (hrej : repoNameValidator allowExistingRepo provider owner
      (if bad = "" then defaultRepoName else bad) = some msg) :
    GetRepoName true allowExistingRepo provider defaultRepoName owner responses =
      GetRepoName true allowExistingRepo provider2 defaultRepoName owner
        responses ∧
    (GetRepoName true allowExistingRepo provider defaultRepoName owner
      responses).1 = .ok (if defaultRepoName = "" then "dummy"
        else defaultRepoName) ∧
    GetRepoName false allowExistingRepo provider defaultRepoName owner
      (bad :: responses) =
      GetRepoName false allowExistingRepo provider defaultRepoName owner
        responses := by
  refine ⟨rfl, rfl, ?_⟩
  have hstep := askOne_cons_rejected defaultRepoName bad
    (repoNameValidator allowExistingRepo provider owner) responses msg hrej
  unfold GetRepoName
  rw [hstep]

/-- Witness for C7 (amended): the rejecting provider rejects the first
response "taken"; the interactive stage skips it and accepts the next
response once validation is out of the way, while the batch stage ignores
the provider. -/
theorem claim_C7_validation_handling_witness :
    repoNameValidator false rejectAllProvider "alice"
      (if ("taken" : String) = "" then "proj" else "taken") =
      some "name already in use" ∧
    GetRepoName true false rejectAllProvider "proj" "alice" ["ok"] =
      GetRepoName true false acceptAllProvider "proj" "alice" ["ok"] ∧
    (GetRepoName true false rejectAllProvider "proj" "alice" ["ok"]).1 =
      .ok "proj" ∧
    GetRepoName false false rejectAllProvider "proj" "alice" ["taken", "ok"] =
      GetRepoName false false rejectAllProvider "proj" "alice" ["ok"] := by
  have h := claim_C7_validation_handling false rejectAllProvider acceptAllProvider
    "proj" "alice" ["ok"] "taken" "name already in use" rfl
  exact ⟨rfl, h.1, h.2.1, h.2.2⟩
